import Mathlib

/-!
Verification of the RMC75E EtherNet/IP client wrapper
(`src/rmc75e/RMC75EClient.h` / `RMC75EClient.cpp`).

Bytes are modelled as `Nat` reduced modulo 256 wherever the source performs a
`static_cast<uint8_t>`; 32-bit register values (float or int32 alike) are
modelled by their 32-bit bit patterns as `Nat`, since the source moves them
with `memcpy` and never interprets them.  The external CIP transport
(`MessageRouter::sendRequest`) is a function parameter; each client operation
returns its result together with the list of transport requests it issued.
-/

namespace RMC75E

/-- `RMC75EClient::REGISTER_MAP_CLASS` (RMC75EClient.h line 22). -/
def REGISTER_MAP_CLASS : Nat := 0xC0

/-- `RMC75EClient::REGISTER_MAP_INSTANCE` (RMC75EClient.h line 24). -/
def REGISTER_MAP_INSTANCE : Nat := 0x01

/-- `RMC75EClient::SVC_READ_LSB` (RMC75EClient.h line 27). -/
def SVC_READ_LSB : Nat := 0x4B

/-- `RMC75EClient::SVC_WRITE_LSB` (RMC75EClient.h line 28). -/
def SVC_WRITE_LSB : Nat := 0x4C

/-- `RMC75EClient::SVC_READ_MSB` (RMC75EClient.h line 30). -/
def SVC_READ_MSB : Nat := 0x4D

/-- `RMC75EClient::SVC_WRITE_MSB` (RMC75EClient.h line 31). -/
def SVC_WRITE_MSB : Nat := 0x4E

/-- `eipScanner::cip::GeneralStatusCodes::SUCCESS`: the CIP success status is
0 (external library constant; the spec glossary records that 0 denotes
success). -/
def GENERAL_STATUS_SUCCESS : Nat := 0

/-- `RMC75EClient::buildReadPayload` (RMC75EClient.cpp lines 129-139):
six bytes, `file`, `element`, `count` each emitted least-significant byte
first, with each `static_cast<uint8_t>` modelled as a reduction modulo 256. -/
def buildReadPayload (file element count : Nat) : List Nat :=
  [file % 256, file / 256 % 256,
   element % 256, element / 256 % 256,
   count % 256, count / 256 % 256]

/-- The little-endian 4-byte encoding of a 32-bit value's bit pattern: the
bytes `memcpy` reads from one 32-bit value on the (little-endian) host. -/
def le4 (v : Nat) : List Nat :=
  [v % 256, v / 256 % 256, v / 65536 % 256, v / 16777216 % 256]

/-- The byte image of a value array: 4 bytes per value, in input order (the
bytes `memcpy` reads from a contiguous 32-bit value buffer). -/
def encodeValues : List Nat → List Nat
  | [] => []
  | v :: rest => le4 v ++ encodeValues rest

/-- `RMC75EClient::buildWritePayload` (RMC75EClient.cpp lines 141-153):
the same 6-byte header followed by `memcpy(payload.data() + 6, values,
count * 4)`, i.e. the byte image of the first `count` values (every call
site passes `count ≤ values.length`, so the copy stays inside the buffer). -/
def buildWritePayload (file element : Nat) (values : List Nat) (count : Nat) :
    List Nat :=
  [file % 256, file / 256 % 256,
   element % 256, element / 256 % 256,
   count % 256, count / 256 % 256] ++ encodeValues (values.take count)

/-- A CIP explicit-messaging request as handed to
`MessageRouter::sendRequest`: the `EPath(classId, instanceId)` target, the
service code and the payload bytes. -/
structure CIPRequest where
  classId : Nat
  instanceId : Nat
  service : Nat
  payload : List Nat
deriving DecidableEq, Repr

/-- The response the external transport returns: general status code,
additional status words and the data bytes. -/
structure CIPResponse where
  generalStatusCode : Nat
  additionalStatus : List Nat
  data : List Nat
deriving DecidableEq, Repr

/-- Which typed read accessor raised a size mismatch (the source embeds the
function name in the error text). -/
inductive AccessorTag where
  | floatRegs
  | int32Regs
deriving DecidableEq, Repr

/-- The `std::runtime_error`s the client throws, carrying the data the source
formats into the error message. -/
inductive ClientError where
  | notConnected
  | statusError (service : Nat) (status : Nat) (additional : List Nat)
  | sizeMismatch (tag : AccessorTag) (expected actual : Nat)
deriving DecidableEq, Repr

/-- `RMC75EClient::executeRequest` (RMC75EClient.cpp lines 155-184): fails
when no session is active; otherwise sends one request to the fixed
class/instance target and either fails with the non-success status (and any
additional status words) or returns the response data unchanged.  The second
component is the list of transport requests issued. -/
def executeRequest (connected : Bool) (transport : CIPRequest → CIPResponse)
    (service : Nat) (payload : List Nat) :
    Except ClientError (List Nat) × List CIPRequest :=
  if !connected then
    (.error .notConnected, [])
  else
    let req : CIPRequest :=
      ⟨REGISTER_MAP_CLASS, REGISTER_MAP_INSTANCE, service, payload⟩
    let response := transport req
    if response.generalStatusCode ≠ GENERAL_STATUS_SUCCESS then
      (.error (.statusError service response.generalStatusCode
        response.additionalStatus), [req])
    else
      (.ok response.data, [req])

/-- Little-endian 32-bit word read from the front of a byte list (what
`memcpy` into a 32-bit host value yields). -/
def leWord32 (bs : List Nat) : Nat :=
  bs.getD 0 0 + 256 * bs.getD 1 0 + 65536 * bs.getD 2 0
    + 16777216 * bs.getD 3 0

/-- The `memcpy(result.data(), raw.data(), count * 4)` of the read accessors:
the first `count` 32-bit words of `raw`, 4 bytes each, little-endian. -/
def decodeWords : Nat → List Nat → List Nat
  | 0, _ => []
  | n + 1, raw => leWord32 (raw.take 4) :: decodeWords n (raw.drop 4)

/-- The request a typed read accessor hands to the transport. -/
def readRequest (file element count : Nat) : CIPRequest :=
  ⟨REGISTER_MAP_CLASS, REGISTER_MAP_INSTANCE, SVC_READ_LSB,
   buildReadPayload file element count⟩

/-- The request a typed write accessor hands to the transport: the count is
`static_cast<uint16_t>(values.size())`, i.e. the length modulo 65536. -/
def writeRequest (file element : Nat) (values : List Nat) : CIPRequest :=
  ⟨REGISTER_MAP_CLASS, REGISTER_MAP_INSTANCE, SVC_WRITE_LSB,
   buildWritePayload file element values (values.length % 65536)⟩

/-- `RMC75EClient::readFloat` (RMC75EClient.cpp lines 69-85): build the read
payload, execute with `SVC_READ_LSB`, fail on short responses, else decode
the first `count` 32-bit bit patterns. -/
def readFloat (connected : Bool) (transport : CIPRequest → CIPResponse)
    (file element count : Nat) :
    Except ClientError (List Nat) × List CIPRequest :=
  let payload := buildReadPayload file element count
  match executeRequest connected transport SVC_READ_LSB payload with
  | (.error e, reqs) => (.error e, reqs)
  | (.ok raw, reqs) =>
      if raw.length < count * 4 then
        (.error (.sizeMismatch .floatRegs (count * 4) raw.length), reqs)
      else
        (.ok (decodeWords count raw), reqs)

/-- `RMC75EClient::readInt32` (RMC75EClient.cpp lines 95-111): identical to
`readFloat` except for the tag in the size-mismatch error. -/
def readInt32 (connected : Bool) (transport : CIPRequest → CIPResponse)
    (file element count : Nat) :
    Except ClientError (List Nat) × List CIPRequest :=
  let payload := buildReadPayload file element count
  match executeRequest connected transport SVC_READ_LSB payload with
  | (.error e, reqs) => (.error e, reqs)
  | (.ok raw, reqs) =>
      if raw.length < count * 4 then
        (.error (.sizeMismatch .int32Regs (count * 4) raw.length), reqs)
      else
        (.ok (decodeWords count raw), reqs)

/-- `RMC75EClient::writeFloat` (RMC75EClient.cpp lines 87-93): builds the
write payload with `static_cast<uint16_t>(values.size())` as count, executes
with `SVC_WRITE_LSB`, discards the response data. -/
def writeFloat (connected : Bool) (transport : CIPRequest → CIPResponse)
    (file element : Nat) (values : List Nat) :
    Except ClientError Unit × List CIPRequest :=
  let payload := buildWritePayload file element values (values.length % 65536)
  match executeRequest connected transport SVC_WRITE_LSB payload with
  | (.error e, reqs) => (.error e, reqs)
  | (.ok _, reqs) => (.ok (), reqs)

/-- `RMC75EClient::writeInt32` (RMC75EClient.cpp lines 113-119): same shape
as `writeFloat`. -/
def writeInt32 (connected : Bool) (transport : CIPRequest → CIPResponse)
    (file element : Nat) (values : List Nat) :
    Except ClientError Unit × List CIPRequest :=
  let payload := buildWritePayload file element values (values.length % 65536)
  match executeRequest connected transport SVC_WRITE_LSB payload with
  | (.error e, reqs) => (.error e, reqs)
  | (.ok _, reqs) => (.ok (), reqs)

/-- `RMC75EClient::sendRawRequest` (RMC75EClient.cpp lines 121-123): a
pass-through to the executor. -/
def sendRawRequest (connected : Bool) (transport : CIPRequest → CIPResponse)
    (service : Nat) (data : List Nat) :
    Except ClientError (List Nat) × List CIPRequest :=
  executeRequest connected transport service data

/-! ## Connection state machine

`sessionInfo_` is modelled as `Option Nat` (a session identity when
present).  `connect` / `disconnect` / a failed session establishment are the
three events that can touch it (RMC75EClient.cpp lines 39-63). -/

/-- One call on the connection API: `connect()` whose establishment succeeds
(yielding session `sid`), `connect()` whose establishment throws, or
`disconnect()`. -/
inductive ConnOp where
  | connectOk (sid : Nat)
  | connectFail
  | disconnect
deriving DecidableEq, Repr

/-- State transition of `sessionInfo_` for one call (RMC75EClient.cpp lines
39-59): `connect` returns early when a session exists (log only); a failed
establishment runs `sessionInfo_.reset()` (it only happens with no session
held); `disconnect` resets the session when present and does nothing
otherwise. -/
def applyOp (s : Option Nat) : ConnOp → Option Nat
  | .connectOk sid =>
      match s with
      | some x => some x
      | none => some sid
  | .connectFail =>
      match s with
      | some x => some x
      | none => none
  | .disconnect => none

/-- Run a sequence of connection calls from a starting state. -/
def runOps (s : Option Nat) (ops : List ConnOp) : Option Nat :=
  ops.foldl applyOp s

/-- `RMC75EClient::isConnected` (RMC75EClient.cpp lines 61-63):
`sessionInfo_ != nullptr`. -/
def isConnected (s : Option Nat) : Bool := s.isSome

/-- The outcome of the last successful state-changing call in a sequence:
`some true` when it was a (successful) `connect`, `some false` when it was a
`disconnect`, `none` when no call in the sequence changed state. -/
def lastChange : List ConnOp → Option Bool
  | [] => none
  | op :: rest =>
      match lastChange rest with
      | some b => some b
      | none =>
          match op with
          | .connectOk _ => some true
          | .disconnect => some false
          | .connectFail => none

/-! ## Helper lemmas -/

theorem encodeValues_length (vs : List Nat) :
    (encodeValues vs).length = 4 * vs.length := by
  induction vs with
  | nil => rfl
  | cons v rest ih =>
      simp [encodeValues, le4, ih]
      ring

theorem leWord32_le4 (v : Nat) (h : v < 4294967296) :
    leWord32 (le4 v) = v := by
  simp [leWord32, le4]
  omega

theorem decodeWords_encodeValues (vs : List Nat)
    (h : ∀ v ∈ vs, v < 4294967296) :
    decodeWords vs.length (encodeValues vs) = vs := by
  induction vs with
  | nil => rfl
  | cons v rest ih =>
      have hv : v < 4294967296 := h v (List.mem_cons_self v rest)
      have htake : (le4 v ++ encodeValues rest).take 4 = le4 v := rfl
      have hdrop : (le4 v ++ encodeValues rest).drop 4 = encodeValues rest := rfl
      simp only [List.length_cons, encodeValues, decodeWords, htake, hdrop]
      rw [leWord32_le4 v hv, ih (fun w hw => h w (List.mem_cons_of_mem v hw))]

theorem decodeWords_length (n : Nat) (raw : List Nat) :
    (decodeWords n raw).length = n := by
  induction n generalizing raw with
  | zero => rfl
  | succ k ih => simp [decodeWords, ih]

theorem decodeWords_take (n : Nat) (raw : List Nat) :
    decodeWords n (raw.take (n * 4)) = decodeWords n raw := by
  induction n generalizing raw with
  | zero => rfl
  | succ k ih =>
      have h4 : min 4 ((k + 1) * 4) = 4 := by omega
      have hsub : (k + 1) * 4 - 4 = k * 4 := by omega
      simp only [decodeWords, List.take_take, h4, List.drop_take, hsub, ih]

theorem executeRequest_ok (transport : CIPRequest → CIPResponse)
    (service : Nat) (payload : List Nat)
    (hok : (transport ⟨REGISTER_MAP_CLASS, REGISTER_MAP_INSTANCE, service,
      payload⟩).generalStatusCode = GENERAL_STATUS_SUCCESS) :
    executeRequest true transport service payload =
      (.ok (transport ⟨REGISTER_MAP_CLASS, REGISTER_MAP_INSTANCE, service,
        payload⟩).data,
       [⟨REGISTER_MAP_CLASS, REGISTER_MAP_INSTANCE, service, payload⟩]) := by
  simp [executeRequest, hok]

theorem executeRequest_err (transport : CIPRequest → CIPResponse)
    (service : Nat) (payload : List Nat)
    (hst : (transport ⟨REGISTER_MAP_CLASS, REGISTER_MAP_INSTANCE, service,
      payload⟩).generalStatusCode ≠ GENERAL_STATUS_SUCCESS) :
    executeRequest true transport service payload =
      (.error (.statusError service
        (transport ⟨REGISTER_MAP_CLASS, REGISTER_MAP_INSTANCE, service,
          payload⟩).generalStatusCode
        (transport ⟨REGISTER_MAP_CLASS, REGISTER_MAP_INSTANCE, service,
          payload⟩).additionalStatus),
       [⟨REGISTER_MAP_CLASS, REGISTER_MAP_INSTANCE, service, payload⟩]) := by
  simp [executeRequest, hst]

theorem executeRequest_true_trace (transport : CIPRequest → CIPResponse)
    (service : Nat) (payload : List Nat) :
    (executeRequest true transport service payload).2 =
      [⟨REGISTER_MAP_CLASS, REGISTER_MAP_INSTANCE, service, payload⟩] := by
  by_cases hst : (transport ⟨REGISTER_MAP_CLASS, REGISTER_MAP_INSTANCE,
      service, payload⟩).generalStatusCode = GENERAL_STATUS_SUCCESS
  · rw [executeRequest_ok transport service payload hst]
  · rw [executeRequest_err transport service payload hst]

/-! ## Claims -/

/-- C1: `buildReadPayload` emits exactly 6 bytes: `file`, `element`, `count`
in that order, each as a little-endian 16-bit field (so each pair of bytes
decodes back to its field); file=57, element=30, count=1 gives the bytes
[0x39,0x00,0x1E,0x00,0x01,0x00]; count is not validated, zero and maximal
counts pass through unchanged. -/
theorem buildReadPayload_spec (file element count : Nat)
    (hf : file < 65536) (he : element < 65536) (hc : count < 65536) :
    (buildReadPayload file element count).length = 6 ∧
    buildReadPayload file element count =
      [file % 256, file / 256, element % 256, element / 256,
       count % 256, count / 256] ∧
    (buildReadPayload file element count).getD 0 0
      + 256 * (buildReadPayload file element count).getD 1 0 = file ∧
    (buildReadPayload file element count).getD 2 0
      + 256 * (buildReadPayload file element count).getD 3 0 = element ∧
    (buildReadPayload file element count).getD 4 0
      + 256 * (buildReadPayload file element count).getD 5 0 = count ∧
    buildReadPayload 57 30 1 = [0x39, 0x00, 0x1E, 0x00, 0x01, 0x00] ∧
    buildReadPayload file element 0 =
      [file % 256, file / 256, element % 256, element / 256, 0, 0] ∧
    buildReadPayload file element 65535 =
      [file % 256, file / 256, element % 256, element / 256, 255, 255] := by
  have hf2 : file / 256 % 256 = file / 256 := Nat.mod_eq_of_lt (by omega)
  have he2 : element / 256 % 256 = element / 256 := Nat.mod_eq_of_lt (by omega)
  have hc2 : count / 256 % 256 = count / 256 := Nat.mod_eq_of_lt (by omega)
  refine ⟨rfl, ?_, ?_, ?_, ?_, rfl, ?_, ?_⟩ <;>
    simp [buildReadPayload, hf2, he2, hc2] <;> omega

/-- C1 witness at file=57, element=30, count=1. -/
theorem buildReadPayload_spec_witness :
    (buildReadPayload 57 30 1).length = 6 ∧
    buildReadPayload 57 30 1 = [0x39, 0x00, 0x1E, 0x00, 0x01, 0x00] :=
  ⟨(buildReadPayload_spec 57 30 1 (by decide) (by decide) (by decide)).1,
   (buildReadPayload_spec 57 30 1 (by decide) (by decide)
     (by decide)).2.2.2.2.2.1⟩

/-- C2: with `len(values)` as count, `buildWritePayload` returns exactly
`6 + 4 * len(values)` bytes; the first 6 equal
`buildReadPayload file element len(values)`, and the rest are the raw
little-endian 4-byte bit patterns of the values, in input order. -/
theorem buildWritePayload_spec (file element : Nat) (values : List Nat) :
    (buildWritePayload file element values values.length).length
      = 6 + 4 * values.length ∧
    (buildWritePayload file element values values.length).take 6
      = buildReadPayload file element values.length ∧
    (buildWritePayload file element values values.length).drop 6
      = encodeValues values := by
  refine ⟨?_, ?_, ?_⟩
  · simp [buildWritePayload, List.take_length, encodeValues_length]
    ring
  · rw [buildWritePayload, List.take_length]
    rfl
  · rw [buildWritePayload, List.take_length]
    rfl

/-- C3: on a successful transport status, `readFloat` and `readInt32` fail
with a size-mismatch error reporting the expected (`4 * count`) and actual
byte counts, returning no values, whenever the response carries fewer than
`4 * count` data bytes; with at least `4 * count` bytes they return exactly
`count` 32-bit values reinterpreted from the first `4 * count` response
bytes, excess bytes ignored. -/
theorem read_size_check_spec (transport : CIPRequest → CIPResponse)
    (file element count : Nat)
    (hok : (transport (readRequest file element count)).generalStatusCode
      = GENERAL_STATUS_SUCCESS) :
    ((transport (readRequest file element count)).data.length < count * 4 →
      readFloat true transport file element count =
        (.error (.sizeMismatch .floatRegs (count * 4)
          (transport (readRequest file element count)).data.length),
         [readRequest file element count]) ∧
      readInt32 true transport file element count =
        (.error (.sizeMismatch .int32Regs (count * 4)
          (transport (readRequest file element count)).data.length),
         [readRequest file element count])) ∧
    (count * 4 ≤ (transport (readRequest file element count)).data.length →
      readFloat true transport file element count =
        (.ok (decodeWords count
          (transport (readRequest file element count)).data),
         [readRequest file element count]) ∧
      readInt32 true transport file element count =
        (.ok (decodeWords count
          (transport (readRequest file element count)).data),
         [readRequest file element count]) ∧
      (decodeWords count
        (transport (readRequest file element count)).data).length = count ∧
      decodeWords count (transport (readRequest file element count)).data =
        decodeWords count
          ((transport (readRequest file element count)).data.take
            (count * 4))) := by
  have hexec := executeRequest_ok transport SVC_READ_LSB
    (buildReadPayload file element count) hok
  constructor
  · intro hlt
    constructor
    · simp only [readFloat]
      rw [hexec]
      simp [readRequest]
      exact hlt
    · simp only [readInt32]
      rw [hexec]
      simp [readRequest]
      exact hlt
  · intro hge
    refine ⟨?_, ?_, decodeWords_length count _, (decodeWords_take count _).symm⟩
    · simp only [readFloat]
      rw [hexec]
      simp [readRequest]
      exact hge
    · simp only [readInt32]
      rw [hexec]
      simp [readRequest]
      exact hge

/-- C3 witness: a 4-byte response with count=2 trips the size check; an
8-byte response with count=2 decodes to two words. -/
theorem read_size_check_spec_witness :
    readFloat true (fun _ => ⟨0, [], [1, 2, 3, 4]⟩) 57 30 2 =
      (.error (.sizeMismatch .floatRegs 8 4), [readRequest 57 30 2]) ∧
    readFloat true (fun _ => ⟨0, [], [1, 0, 0, 0, 2, 0, 0, 0]⟩) 57 30 2 =
      (.ok [1, 2], [readRequest 57 30 2]) :=
  ⟨((read_size_check_spec (fun _ => ⟨0, [], [1, 2, 3, 4]⟩) 57 30 2
      rfl).1 (by decide)).1,
   ((read_size_check_spec (fun _ => ⟨0, [], [1, 0, 0, 0, 2, 0, 0, 0]⟩) 57 30 2
      rfl).2 (by decide)).1⟩

/-- C4: a non-success general status makes the executor fail with an error
carrying the numeric status code and all additional status words, returning
no data; a success status returns the response data unchanged.  Every typed
accessor propagates the status error unchanged. -/
theorem executeRequest_status_spec (transport : CIPRequest → CIPResponse)
    (service : Nat) (payload : List Nat) (file element count : Nat)
    (values : List Nat) :
    ((transport ⟨REGISTER_MAP_CLASS, REGISTER_MAP_INSTANCE, service,
        payload⟩).generalStatusCode ≠ GENERAL_STATUS_SUCCESS →
      executeRequest true transport service payload =
        (.error (.statusError service
          (transport ⟨REGISTER_MAP_CLASS, REGISTER_MAP_INSTANCE, service,
            payload⟩).generalStatusCode
          (transport ⟨REGISTER_MAP_CLASS, REGISTER_MAP_INSTANCE, service,
            payload⟩).additionalStatus),
         [⟨REGISTER_MAP_CLASS, REGISTER_MAP_INSTANCE, service, payload⟩])) ∧
    ((transport ⟨REGISTER_MAP_CLASS, REGISTER_MAP_INSTANCE, service,
        payload⟩).generalStatusCode = GENERAL_STATUS_SUCCESS →
      executeRequest true transport service payload =
        (.ok (transport ⟨REGISTER_MAP_CLASS, REGISTER_MAP_INSTANCE, service,
          payload⟩).data,
         [⟨REGISTER_MAP_CLASS, REGISTER_MAP_INSTANCE, service, payload⟩])) ∧
    ((transport (readRequest file element count)).generalStatusCode
        ≠ GENERAL_STATUS_SUCCESS →
      readFloat true transport file element count =
        (.error (.statusError SVC_READ_LSB
          (transport (readRequest file element count)).generalStatusCode
          (transport (readRequest file element count)).additionalStatus),
         [readRequest file element count]) ∧
      readInt32 true transport file element count =
        (.error (.statusError SVC_READ_LSB
          (transport (readRequest file element count)).generalStatusCode
          (transport (readRequest file element count)).additionalStatus),
         [readRequest file element count])) ∧
    ((transport (writeRequest file element values)).generalStatusCode
        ≠ GENERAL_STATUS_SUCCESS →
      writeFloat true transport file element values =
        (.error (.statusError SVC_WRITE_LSB
          (transport (writeRequest file element values)).generalStatusCode
          (transport (writeRequest file element values)).additionalStatus),
         [writeRequest file element values]) ∧
      writeInt32 true transport file element values =
        (.error (.statusError SVC_WRITE_LSB
          (transport (writeRequest file element values)).generalStatusCode
          (transport (writeRequest file element values)).additionalStatus),
         [writeRequest file element values])) := by
  refine ⟨executeRequest_err transport service payload,
    executeRequest_ok transport service payload, ?_, ?_⟩
  · intro hst
    have hexec := executeRequest_err transport SVC_READ_LSB
      (buildReadPayload file element count) hst
    constructor
    · simp only [readFloat]
      rw [hexec]
      rfl
    · simp only [readInt32]
      rw [hexec]
      rfl
  · intro hst
    have hexec := executeRequest_err transport SVC_WRITE_LSB
      (buildWritePayload file element values (values.length % 65536)) hst
    constructor
    · simp only [writeFloat]
      rw [hexec]
      rfl
    · simp only [writeInt32]
      rw [hexec]
      rfl

/-- C4 witness: a transport that answers general status 5 with additional
status words [1, 2] fails the executor with exactly those carried along; one
that answers status 0 returns the data unchanged. -/
theorem executeRequest_status_spec_witness :
    executeRequest true (fun _ => ⟨5, [1, 2], [9]⟩) 0x4B [0] =
      (.error (.statusError 0x4B 5 [1, 2]),
       [⟨REGISTER_MAP_CLASS, REGISTER_MAP_INSTANCE, 0x4B, [0]⟩]) ∧
    executeRequest true (fun _ => ⟨0, [], [9]⟩) 0x4B [0] =
      (.ok [9], [⟨REGISTER_MAP_CLASS, REGISTER_MAP_INSTANCE, 0x4B, [0]⟩]) :=
  ⟨(executeRequest_status_spec (fun _ => ⟨5, [1, 2], [9]⟩) 0x4B [0] 0 0 0
      []).1 (by decide),
   (executeRequest_status_spec (fun _ => ⟨0, [], [9]⟩) 0x4B [0] 0 0 0
      []).2.1 rfl⟩

/-- C5: with no active session, every register operation fails with the
not-connected error and issues no transport request at all. -/
theorem notConnected_spec (transport : CIPRequest → CIPResponse)
    (file element count service : Nat) (values data : List Nat) :
    readFloat false transport file element count =
      (.error .notConnected, []) ∧
    readInt32 false transport file element count =
      (.error .notConnected, []) ∧
    writeFloat false transport file element values =
      (.error .notConnected, []) ∧
    writeInt32 false transport file element values =
      (.error .notConnected, []) ∧
    sendRawRequest false transport service data =
      (.error .notConnected, []) :=
  ⟨rfl, rfl, rfl, rfl, rfl⟩

/-- C6: encoding a value array with `buildWritePayload` and decoding the
bytes after the 6-byte header the way the read accessors do returns the
original array bit-for-bit.  Float and int32 arrays are both carried as
32-bit bit patterns, so one statement covers both round trips. -/
theorem roundTrip_spec (file element : Nat) (values : List Nat)
    (h : ∀ v ∈ values, v < 4294967296) :
    decodeWords values.length
        ((buildWritePayload file element values values.length).drop 6)
      = values := by
  have hdrop : (buildWritePayload file element values values.length).drop 6
      = encodeValues values := by
    rw [buildWritePayload, List.take_length]
    rfl
  rw [hdrop, decodeWords_encodeValues values h]

/-- C6 witness: the bit pattern of 3.14f (0x4048F5C3) survives the round
trip, as does an int32 pattern pair. -/
theorem roundTrip_spec_witness :
    decodeWords 1 ((buildWritePayload 56 0 [0x4048F5C3] 1).drop 6)
      = [0x4048F5C3] ∧
    decodeWords 2 ((buildWritePayload 56 0 [7, 0xFFFFFFFE] 2).drop 6)
      = [7, 0xFFFFFFFE] :=
  ⟨roundTrip_spec 56 0 [0x4048F5C3] (by decide),
   roundTrip_spec 56 0 [7, 0xFFFFFFFE] (by decide)⟩

theorem readFloat_trace (transport : CIPRequest → CIPResponse)
    (file element count : Nat) :
    (readFloat true transport file element count).2
      = [readRequest file element count] := by
  simp only [readFloat]
  rcases hE : executeRequest true transport SVC_READ_LSB
      (buildReadPayload file element count) with ⟨res, reqs⟩
  have h : reqs = [readRequest file element count] := by
    have ht := executeRequest_true_trace transport SVC_READ_LSB
      (buildReadPayload file element count)
    rw [hE] at ht
    exact ht
  subst h
  rcases res with e | raw
  · rfl
  · by_cases hl : raw.length < count * 4
    · simp [hl]
    · simp [hl]

theorem readInt32_trace (transport : CIPRequest → CIPResponse)
    (file element count : Nat) :
    (readInt32 true transport file element count).2
      = [readRequest file element count] := by
  simp only [readInt32]
  rcases hE : executeRequest true transport SVC_READ_LSB
      (buildReadPayload file element count) with ⟨res, reqs⟩
  have h : reqs = [readRequest file element count] := by
    have ht := executeRequest_true_trace transport SVC_READ_LSB
      (buildReadPayload file element count)
    rw [hE] at ht
    exact ht
  subst h
  rcases res with e | raw
  · rfl
  · by_cases hl : raw.length < count * 4
    · simp [hl]
    · simp [hl]

theorem writeFloat_trace (transport : CIPRequest → CIPResponse)
    (file element : Nat) (values : List Nat) :
    (writeFloat true transport file element values).2
      = [writeRequest file element values] := by
  have h := executeRequest_true_trace transport SVC_WRITE_LSB
    (buildWritePayload file element values (values.length % 65536))
  simp only [writeFloat]
  rcases hE : executeRequest true transport SVC_WRITE_LSB
      (buildWritePayload file element values (values.length % 65536))
    with ⟨res, reqs⟩
  rw [hE] at h
  rcases res with e | raw
  · exact h
  · exact h

theorem writeInt32_trace (transport : CIPRequest → CIPResponse)
    (file element : Nat) (values : List Nat) :
    (writeInt32 true transport file element values).2
      = [writeRequest file element values] := by
  have h := executeRequest_true_trace transport SVC_WRITE_LSB
    (buildWritePayload file element values (values.length % 65536))
  simp only [writeInt32]
  rcases hE : executeRequest true transport SVC_WRITE_LSB
      (buildWritePayload file element values (values.length % 65536))
    with ⟨res, reqs⟩
  rw [hE] at h
  rcases res with e | raw
  · exact h
  · exact h

/-- C7: every transport request the client issues targets class 0xC0,
instance 0x01; the typed read accessors always use service 0x4B and the
typed writes 0x4C (so neither MSB-first code 0x4D/0x4E is ever used by a
typed accessor), and `sendRawRequest` hands its service code and payload to
the executor unchanged. -/
theorem service_codes_spec (connected : Bool)
    (transport : CIPRequest → CIPResponse)
    (file element count service : Nat) (values data : List Nat) :
    (readFloat true transport file element count).2
      = [readRequest file element count] ∧
    (readInt32 true transport file element count).2
      = [readRequest file element count] ∧
    (writeFloat true transport file element values).2
      = [writeRequest file element values] ∧
    (writeInt32 true transport file element values).2
      = [writeRequest file element values] ∧
    sendRawRequest connected transport service data
      = executeRequest connected transport service data ∧
    (sendRawRequest true transport service data).2
      = [⟨REGISTER_MAP_CLASS, REGISTER_MAP_INSTANCE, service, data⟩] ∧
    (readRequest file element count).classId = REGISTER_MAP_CLASS ∧
    (readRequest file element count).instanceId = REGISTER_MAP_INSTANCE ∧
    (readRequest file element count).service = SVC_READ_LSB ∧
    (writeRequest file element values).classId = REGISTER_MAP_CLASS ∧
    (writeRequest file element values).instanceId = REGISTER_MAP_INSTANCE ∧
    (writeRequest file element values).service = SVC_WRITE_LSB ∧
    (SVC_READ_LSB == SVC_READ_MSB) = false ∧
    (SVC_READ_LSB == SVC_WRITE_MSB) = false ∧
    (SVC_WRITE_LSB == SVC_READ_MSB) = false ∧
    (SVC_WRITE_LSB == SVC_WRITE_MSB) = false :=
  ⟨readFloat_trace transport file element count,
   readInt32_trace transport file element count,
   writeFloat_trace transport file element values,
   writeInt32_trace transport file element values,
   rfl,
   executeRequest_true_trace transport service data,
   rfl, rfl, rfl, rfl, rfl, rfl,
   by decide, by decide, by decide, by decide⟩

theorem runOps_lastChange (s : Option Nat) (ops : List ConnOp) :
    isConnected (runOps s ops) = (lastChange ops).getD (isConnected s) := by
  induction ops generalizing s with
  | nil => rfl
  | cons op rest ih =>
      have h := ih (applyOp s op)
      simp only [runOps, List.foldl] at h ⊢
      rw [h]
      cases hlc : lastChange rest with
      | some b => simp [lastChange, hlc]
      | none =>
          cases op with
          | connectOk sid =>
              cases s <;> simp [lastChange, hlc, applyOp, isConnected]
          | connectFail =>
              cases s <;> simp [lastChange, hlc, applyOp, isConnected]
          | disconnect =>
              cases s <;> simp [lastChange, hlc, applyOp, isConnected]

/-- C8: `connect` on an active session is a no-op keeping the existing
session; `disconnect` without a session is a no-op staying disconnected;
after any sequence of calls `isConnected` is true exactly when the last
successful state-changing call was a `connect` (falling back to the prior
state when no call changed state). -/
theorem connect_idempotent_spec (x sid : Nat) (s : Option Nat)
    (ops : List ConnOp) :
    applyOp (some x) (.connectOk sid) = some x ∧
    isConnected (applyOp (some x) (.connectOk sid)) = true ∧
    applyOp none .disconnect = none ∧
    isConnected (applyOp none .disconnect) = false ∧
    isConnected (runOps s ops) = (lastChange ops).getD (isConnected s) :=
  ⟨rfl, rfl, rfl, rfl, runOps_lastChange s ops⟩

/-- C9: a failed session establishment leaves no session behind,
`isConnected` reports false afterwards, and a subsequent successful
`connect` establishes a fresh session instead of hitting the
already-connected early return. -/
theorem connect_failure_spec (sid : Nat) :
    applyOp none .connectFail = none ∧
    isConnected (applyOp none .connectFail) = false ∧
    applyOp (applyOp none .connectFail) (.connectOk sid) = some sid :=
  ⟨rfl, rfl, rfl⟩

/-- C10: the typed writes truncate the array length to 16 bits: the count
field in the issued payload header decodes to `len(values) % 65536`, only
the first `len(values) % 65536` values appear in the payload data, and such
a request is not rejected — it succeeds whenever the transport reports
success. -/
theorem write_truncation_spec (transport : CIPRequest → CIPResponse)
    (file element : Nat) (values : List Nat) :
    (writeFloat true transport file element values).2
      = [writeRequest file element values] ∧
    (writeInt32 true transport file element values).2
      = [writeRequest file element values] ∧
    (writeRequest file element values).payload
      = buildWritePayload file element values (values.length % 65536) ∧
    (buildWritePayload file element values (values.length % 65536)).getD 4 0
        + 256 * (buildWritePayload file element values
          (values.length % 65536)).getD 5 0
      = values.length % 65536 ∧
    (buildWritePayload file element values (values.length % 65536)).drop 6
      = encodeValues (values.take (values.length % 65536)) ∧
    ((transport (writeRequest file element values)).generalStatusCode
        = GENERAL_STATUS_SUCCESS →
      writeFloat true transport file element values =
        (.ok (), [writeRequest file element values]) ∧
      writeInt32 true transport file element values =
        (.ok (), [writeRequest file element values])) := by
  refine ⟨writeFloat_trace transport file element values,
    writeInt32_trace transport file element values, rfl, ?_, rfl, ?_⟩
  · have hlt : values.length % 65536 < 65536 :=
      Nat.mod_lt _ (by norm_num)
    simp [buildWritePayload]
    omega
  · intro hok
    have hexec := executeRequest_ok transport SVC_WRITE_LSB
      (buildWritePayload file element values (values.length % 65536)) hok
    constructor
    · simp only [writeFloat]
      rw [hexec]
      rfl
    · simp only [writeInt32]
      rw [hexec]
      rfl

/-- C10 witness: a one-element write issues the truncation-correct payload
and succeeds against a success-status transport. -/
theorem write_truncation_spec_witness :
    writeFloat true (fun _ => ⟨0, [], []⟩) 1 2 [7] =
      (.ok (), [writeRequest 1 2 [7]]) :=
  ((write_truncation_spec (fun _ => ⟨0, [], []⟩) 1 2 [7]).2.2.2.2.2 rfl).1

end RMC75E
